import Mathlib

/-!
Verification of the pump energy-analysis calculation core
(`apppumpsv3.py`): head-loss computation (Darcy–Weisbach with a
regime-dependent friction factor), energy-cost derivation, the
diameter sweep feeding the cost chart, and the suggestion rules.
The floating-point arithmetic of the source is modelled over `ℝ`.
-/

open Real

/-- A fluid of the static table: density `rho` (kg/m³) and kinematic
viscosity `nu` (m²/s). -/
structure Fluido where
  rho : ℝ
  nu : ℝ

/-- Entry "Água a 20°C" of `FLUIDOS`. -/
def aguaA20C : Fluido := ⟨998.2, 1.004e-6⟩

/-- Entry "Etanol a 20°C" of `FLUIDOS`. -/
def etanolA20C : Fluido := ⟨789.0, 1.51e-6⟩

/-- Entry "Glicerina a 20°C" of `FLUIDOS`. -/
def glicerinaA20C : Fluido := ⟨1261.0, 1.49e-3⟩

/-- Entry "Óleo Leve (genérico)" of `FLUIDOS`. -/
def oleoLeve : Fluido := ⟨880.0, 1.5e-5⟩

/-- Return value of `calcular_perda_carga`: major loss (`principal`),
minor loss (`localizada`) and velocity, all as in the source dict. -/
structure PerdaCarga where
  principal : ℝ
  localizada : ℝ
  velocidade : ℝ

/-- Shallow embedding of `calcular_perda_carga` (src/apppumpsv3.py,
lines 23–40).  `fluido` stands for `FLUIDOS[fluido_selecionado]`;
`math.log10 x` is `Real.logb 10 x` and `x ** 0.9` is real rpow. -/
noncomputable def calcular_perda_carga (vazao_m3h diametro_mm comprimento_m
    rugosidade_mm k_total : ℝ) (fluido : Fluido) : PerdaCarga :=
  if diametro_mm ≤ 0 then ⟨0, 0, 0⟩ else
  let vazao_m3s := vazao_m3h / 3600
  let diametro_m := diametro_mm / 1000
  let rugosidade_m := rugosidade_mm / 1000
  let nu := fluido.nu
  let area := (Real.pi * diametro_m ^ 2) / 4
  let velocidade := vazao_m3s / area
  let reynolds := if nu > 0 then velocidade * diametro_m / nu else 0
  let fator_atrito :=
    if reynolds > 4000 then
      0.25 / (Real.logb 10 ((rugosidade_m / (3.7 * diametro_m)) +
        (5.74 / reynolds ^ (0.9 : ℝ)))) ^ 2
    else if reynolds > 0 then 64 / reynolds
    else 0
  { principal := fator_atrito * (comprimento_m / diametro_m) *
      (velocidade ^ 2 / (2 * 9.81))
    localizada := k_total * (velocidade ^ 2 / (2 * 9.81))
    velocidade := velocidade }

/-- Return value of `calcular_analise_energetica`. -/
structure AnaliseEnergetica where
  potencia_eletrica_kW : ℝ
  consumo_mensal_kWh : ℝ
  custo_anual : ℝ

/-- Shallow embedding of `calcular_analise_energetica`
(src/apppumpsv3.py, lines 42–51). -/
noncomputable def calcular_analise_energetica (vazao_m3h h_man eficiencia_bomba
    eficiencia_motor horas_dia custo_kwh : ℝ) (fluido : Fluido) :
    AnaliseEnergetica :=
  let rho := fluido.rho
  let vazao_m3s := vazao_m3h / 3600
  let potencia_hidraulica_W := vazao_m3s * rho * 9.81 * h_man
  let potencia_eixo_W :=
    if eficiencia_bomba > 0 then potencia_hidraulica_W / eficiencia_bomba else 0
  let potencia_eletrica_W :=
    if eficiencia_motor > 0 then potencia_eixo_W / eficiencia_motor else 0
  let potencia_eletrica_kW := potencia_eletrica_W / 1000
  let consumo_mensal_kWh := potencia_eletrica_kW * horas_dia * 30
  let custo_anual := consumo_mensal_kWh * custo_kwh * 12
  { potencia_eletrica_kW := potencia_eletrica_kW
    consumo_mensal_kWh := consumo_mensal_kWh
    custo_anual := custo_anual }

/-- The fixed (non-diameter) keyword parameters of
`gerar_grafico_diametro_custo`. -/
structure SweepParams where
  vazao : ℝ
  h_geometrica : ℝ
  comp_tub : ℝ
  rug_tub : ℝ
  k_total_acessorios : ℝ
  rend_bomba : ℝ
  rend_motor : ℝ
  horas_por_dia : ℝ
  tarifa_energia : ℝ
  fluido_selecionado : Fluido

/-- Real-arithmetic model of `numpy.arange start stop step` for the
step used by the sweep: `ceil ((stop - start) / step)` samples
`start, start + step, …`. -/
noncomputable def arange (start stop step : ℝ) : List ℝ :=
  (List.range ⌈(stop - start) / step⌉₊).map fun i : ℕ => start + (i : ℝ) * step

/-- Shallow embedding of `gerar_grafico_diametro_custo`
(src/apppumpsv3.py, lines 53–63); the data frame is modelled as the
list of (diameter, annual cost) pairs in sampling order. -/
noncomputable def gerar_grafico_diametro_custo (diam_min diam_max passo : ℝ)
    (p : SweepParams) : List (ℝ × ℝ) :=
  if diam_min ≥ diam_max ∨ passo ≤ 0 then [] else
  (arange diam_min (diam_max + passo) passo).map fun diam =>
    let perdas := calcular_perda_carga p.vazao diam p.comp_tub p.rug_tub
      p.k_total_acessorios p.fluido_selecionado
    let h_man_total_calc := p.h_geometrica + perdas.principal + perdas.localizada
    (diam, (calcular_analise_energetica p.vazao h_man_total_calc p.rend_bomba
      p.rend_motor p.horas_por_dia p.tarifa_energia
      p.fluido_selecionado).custo_anual)

/-- Suggestion string appended when the pump efficiency is below 60%. -/
def sugestaoBomba : String :=
  "Eficiência da bomba abaixo de 60%. Considere a substituição por um modelo mais moderno."

/-- Suggestion string appended when the motor efficiency is below 85%. -/
def sugestaoMotor : String :=
  "Eficiência do motor abaixo de 85%. Motores de alto rendimento (IR3+) podem gerar grande economia."

/-- Suggestion string appended when the annual cost exceeds 5000. -/
def sugestaoInversor : String :=
  "Se a vazão for variável, um inversor de frequência pode reduzir drasticamente o consumo."

/-- Unconditional preventive-maintenance suggestion. -/
def sugestaoManutencao : String :=
  "Realize manutenções preventivas, verifique vazamentos e o estado dos componentes da bomba."

/-- Shallow embedding of `gerar_sugestoes` (src/apppumpsv3.py,
lines 65–71): three conditional appends followed by the unconditional
maintenance reminder. -/
noncomputable def gerar_sugestoes (eficiencia_bomba eficiencia_motor
    custo_anual : ℝ) : List String :=
  let s0 : List String := []
  let s1 := if eficiencia_bomba < 0.6 then s0 ++ [sugestaoBomba] else s0
  let s2 := if eficiencia_motor < 0.85 then s1 ++ [sugestaoMotor] else s1
  let s3 := if custo_anual > 5000 then s2 ++ [sugestaoInversor] else s2
  s3 ++ [sugestaoManutencao]

/-- The spec's velocity formula: `flowRate_m3s / (pi * d^2 / 4)` after the
unit conversions of §4.2 step 1–2. -/
noncomputable def specVelocity (vazao_m3h diametro_mm : ℝ) : ℝ :=
  (vazao_m3h / 3600) / (Real.pi * (diametro_mm / 1000) ^ 2 / 4)

/-- The spec's Reynolds number: `velocity * d / nu`, and `0` whenever
`nu ≤ 0` (§4.2 step 3). -/
noncomputable def specReynolds (vazao_m3h diametro_mm : ℝ) (fl : Fluido) : ℝ :=
  if fl.nu > 0 then
    specVelocity vazao_m3h diametro_mm * (diametro_mm / 1000) / fl.nu
  else 0

/-- The spec's regime-based friction factor (§4.2 step 4): Swamee–Jain
for `Re > 4000`, `64 / Re` for `0 < Re ≤ 4000`, and `0` for the
degenerate `Re = 0` case. -/
noncomputable def specFriction (vazao_m3h diametro_mm rugosidade_mm : ℝ)
    (fl : Fluido) : ℝ :=
  let re := specReynolds vazao_m3h diametro_mm fl
  if re > 4000 then
    0.25 / (Real.logb 10 ((rugosidade_mm / 1000) / (3.7 * (diametro_mm / 1000)) +
      5.74 / re ^ (0.9 : ℝ))) ^ 2
  else if 0 < re ∧ re ≤ 4000 then 64 / re
  else 0

/-- For a positive diameter the head-loss routine agrees component-wise
with the spec's friction factor, velocity and loss formulas. -/
lemma calcular_perda_carga_eq_spec (vazao d L eps k : ℝ) (fl : Fluido)
    (hd : 0 < d) :
    calcular_perda_carga vazao d L eps k fl =
      ⟨specFriction vazao d eps fl * (L / (d / 1000)) *
          (specVelocity vazao d ^ 2 / (2 * 9.81)),
        k * (specVelocity vazao d ^ 2 / (2 * 9.81)),
        specVelocity vazao d⟩ := by
  have hd' : ¬ d ≤ 0 := not_le.mpr hd
  simp only [calcular_perda_carga, specFriction, specReynolds, specVelocity,
    if_neg hd', PerdaCarga.mk.injEq]
  refine ⟨?_, trivial, trivial⟩
  split_ifs <;> first | rfl | simp_all

/-- C1: for positive diameter, `calcular_perda_carga` computes its major
loss with the friction factor selected by Reynolds regime exactly as the
spec states (Swamee–Jain for `Re > 4000`, `64/Re` for `0 < Re ≤ 4000`,
`0` for `Re = 0`), and a non-positive kinematic viscosity forces
`Re = 0`. -/
theorem friction_regime_selection (vazao d L eps k : ℝ) (fl : Fluido)
    (hd : 0 < d) :
    (calcular_perda_carga vazao d L eps k fl).principal
        = specFriction vazao d eps fl * (L / (d / 1000)) *
          (specVelocity vazao d ^ 2 / (2 * 9.81))
      ∧ (calcular_perda_carga vazao d L eps k fl).velocidade
        = specVelocity vazao d
      ∧ (fl.nu ≤ 0 → specReynolds vazao d fl = 0) := by
  rw [calcular_perda_carga_eq_spec vazao d L eps k fl hd]
  refine ⟨rfl, rfl, fun hnu => ?_⟩
  simp only [specReynolds, if_neg (not_lt.mpr hnu)]

/-- Witness for `friction_regime_selection` at a concrete input. -/
theorem friction_regime_selection_witness :
    (0 : ℝ) < 100 ∧
      ((calcular_perda_carga 50 100 100 0.15 5 aguaA20C).principal
          = specFriction 50 100 0.15 aguaA20C * (100 / (100 / 1000)) *
            (specVelocity 50 100 ^ 2 / (2 * 9.81))
        ∧ (calcular_perda_carga 50 100 100 0.15 5 aguaA20C).velocidade
          = specVelocity 50 100
        ∧ (aguaA20C.nu ≤ 0 → specReynolds 50 100 aguaA20C = 0)) :=
  ⟨by norm_num, friction_regime_selection 50 100 100 0.15 5 aguaA20C (by norm_num)⟩

/-- C5: with a non-positive pipe diameter, `calcular_perda_carga`
returns the all-zero result regardless of the other inputs. -/
theorem degenerate_diameter_all_zero (vazao d L eps k : ℝ) (fl : Fluido)
    (hd : d ≤ 0) :
    calcular_perda_carga vazao d L eps k fl = ⟨0, 0, 0⟩ := by
  unfold calcular_perda_carga
  rw [if_pos hd]

/-- Witness for `degenerate_diameter_all_zero` at a concrete input. -/
theorem degenerate_diameter_all_zero_witness :
    (-3 : ℝ) ≤ 0 ∧ calcular_perda_carga 50 (-3) 100 0.15 5 aguaA20C = ⟨0, 0, 0⟩ :=
  ⟨by norm_num, degenerate_diameter_all_zero 50 (-3) 100 0.15 5 aguaA20C (by norm_num)⟩

/-- C6: with a non-positive pump or motor efficiency,
`calcular_analise_energetica` defines the corresponding power term as
zero instead of dividing, so the electrical power is zero. -/
theorem nonpositive_efficiency_zero_power (vazao h_man eb em horas custo : ℝ)
    (fl : Fluido) (h : eb ≤ 0 ∨ em ≤ 0) :
    (calcular_analise_energetica vazao h_man eb em horas custo fl).potencia_eletrica_kW
      = 0 := by
  simp only [calcular_analise_energetica]
  split_ifs with h1 h2
  · rcases h with h | h
    · exact absurd h2 (not_lt.mpr h)
    · exact absurd h1 (not_lt.mpr h)
  · simp
  · simp

/-- Witness for `nonpositive_efficiency_zero_power` at a concrete input. -/
theorem nonpositive_efficiency_zero_power_witness :
    ((0 : ℝ) ≤ 0 ∨ (0.9 : ℝ) ≤ 0) ∧
      (calcular_analise_energetica 50 30 0 0.9 8 0.75 aguaA20C).potencia_eletrica_kW
        = 0 :=
  ⟨Or.inl le_rfl,
    nonpositive_efficiency_zero_power 50 30 0 0.9 8 0.75 aguaA20C (Or.inl le_rfl)⟩

/-- C7: with `diam_min ≥ diam_max` or a non-positive step, the sweep
returns the empty sequence. -/
theorem invalid_range_empty_sweep (dmin dmax passo : ℝ) (p : SweepParams)
    (h : dmin ≥ dmax ∨ passo ≤ 0) :
    gerar_grafico_diametro_custo dmin dmax passo p = [] := by
  unfold gerar_grafico_diametro_custo
  rw [if_pos h]

/-- Witness for `invalid_range_empty_sweep`: the spec's concrete
scenario `diam_min = diam_max = 50`, `passo = 25`. -/
theorem invalid_range_empty_sweep_witness :
    ((50 : ℝ) ≥ 50 ∨ (25 : ℝ) ≤ 0) ∧
      gerar_grafico_diametro_custo 50 50 25
        ⟨50, 15, 100, 0.15, 5, 0.7, 0.9, 8, 0.75, aguaA20C⟩ = [] :=
  ⟨Or.inl le_rfl,
    invalid_range_empty_sweep 50 50 25
      ⟨50, 15, 100, 0.15, 5, 0.7, 0.9, 8, 0.75, aguaA20C⟩ (Or.inl le_rfl)⟩

/-- C8: `gerar_sugestoes` returns, in rule order, exactly the matching
conditional suggestions (pump warning iff `eb < 0.60`, motor warning
iff `em < 0.85`, frequency-inverter suggestion iff `custo > 5000`),
always followed by the preventive-maintenance reminder as the last
element; in particular `(0.5, 0.95, 6000)` gives exactly the pump
warning, the inverter suggestion and the maintenance reminder. -/
theorem suggestion_rules :
    (∀ eb em ca : ℝ,
        gerar_sugestoes eb em ca =
          (if eb < 0.6 then [sugestaoBomba] else []) ++
          (if em < 0.85 then [sugestaoMotor] else []) ++
          (if ca > 5000 then [sugestaoInversor] else []) ++
          [sugestaoManutencao]
      ∧ (gerar_sugestoes eb em ca).getLast? = some sugestaoManutencao)
    ∧ gerar_sugestoes 0.5 0.95 6000 =
        [sugestaoBomba, sugestaoInversor, sugestaoManutencao] := by
  have key : ∀ eb em ca : ℝ,
      gerar_sugestoes eb em ca =
        (if eb < 0.6 then [sugestaoBomba] else []) ++
        (if em < 0.85 then [sugestaoMotor] else []) ++
        (if ca > 5000 then [sugestaoInversor] else []) ++
        [sugestaoManutencao] := by
    intro eb em ca
    simp only [gerar_sugestoes]
    split_ifs <;> simp
  refine ⟨fun eb em ca => ⟨key eb em ca, ?_⟩, ?_⟩
  · rw [key eb em ca]
    exact List.getLast?_concat _
  · rw [key]
    norm_num

/-- C3: for positive efficiencies the energy analysis is exactly the
spec's chain (hydraulic power, division by both efficiencies, `/1000`,
`·hours·30`, `·tariff·12`), and on the spec's concrete scenario the
hydraulic power recovered from the output is the stated formula, within
3 W of 4078 W, with each downstream value recomputable from the
previous one. -/
theorem energy_cost_chain :
    (∀ (vazao h_man eb em horas custo : ℝ) (fl : Fluido), 0 < eb → 0 < em →
        (calcular_analise_energetica vazao h_man eb em horas custo fl).potencia_eletrica_kW
          = (vazao / 3600) * fl.rho * 9.81 * h_man / eb / em / 1000
      ∧ (calcular_analise_energetica vazao h_man eb em horas custo fl).consumo_mensal_kWh
          = (calcular_analise_energetica vazao h_man eb em horas custo fl).potencia_eletrica_kW
            * horas * 30
      ∧ (calcular_analise_energetica vazao h_man eb em horas custo fl).custo_anual
          = (calcular_analise_energetica vazao h_man eb em horas custo fl).consumo_mensal_kWh
            * custo * 12)
    ∧ (calcular_analise_energetica 50 30 0.7 0.9 8 0.75 aguaA20C).potencia_eletrica_kW
        * 0.7 * 0.9 * 1000 = (50 / 3600) * 998.2 * 9.81 * 30
    ∧ |(calcular_analise_energetica 50 30 0.7 0.9 8 0.75 aguaA20C).potencia_eletrica_kW
        * 0.7 * 0.9 * 1000 - 4078| < 3
    ∧ (calcular_analise_energetica 50 30 0.7 0.9 8 0.75 aguaA20C).consumo_mensal_kWh
        = (calcular_analise_energetica 50 30 0.7 0.9 8 0.75 aguaA20C).potencia_eletrica_kW
          * 8 * 30
    ∧ (calcular_analise_energetica 50 30 0.7 0.9 8 0.75 aguaA20C).custo_anual
        = (calcular_analise_energetica 50 30 0.7 0.9 8 0.75 aguaA20C).consumo_mensal_kWh
          * 0.75 * 12 := by
  constructor
  · intro vazao h_man eb em horas custo fl heb hem
    simp only [calcular_analise_energetica, if_pos heb, if_pos hem]
    exact ⟨trivial, trivial, trivial⟩
  · have h7 : (0.7 : ℝ) > 0 := by norm_num
    have h9 : (0.9 : ℝ) > 0 := by norm_num
    simp only [calcular_analise_energetica, if_pos h7, if_pos h9, aguaA20C]
    refine ⟨by ring, ?_, trivial, trivial⟩
    rw [abs_lt]
    constructor <;> norm_num

/-- Witness for `energy_cost_chain` at the spec's scenario inputs. -/
theorem energy_cost_chain_witness :
    (0 : ℝ) < 0.7 ∧ (0 : ℝ) < 0.9 ∧
      ((calcular_analise_energetica 50 30 0.7 0.9 8 0.75 aguaA20C).potencia_eletrica_kW
          = (50 / 3600) * (aguaA20C).rho * 9.81 * 30 / 0.7 / 0.9 / 1000
        ∧ (calcular_analise_energetica 50 30 0.7 0.9 8 0.75 aguaA20C).consumo_mensal_kWh
          = (calcular_analise_energetica 50 30 0.7 0.9 8 0.75 aguaA20C).potencia_eletrica_kW
            * 8 * 30
        ∧ (calcular_analise_energetica 50 30 0.7 0.9 8 0.75 aguaA20C).custo_anual
          = (calcular_analise_energetica 50 30 0.7 0.9 8 0.75 aguaA20C).consumo_mensal_kWh
            * 0.75 * 12) :=
  ⟨by norm_num, by norm_num,
    energy_cost_chain.1 50 30 0.7 0.9 8 0.75 aguaA20C (by norm_num) (by norm_num)⟩

/-- The natural logarithm of 10 exceeds 2. -/
lemma two_lt_log_ten : (2 : ℝ) < Real.log 10 := by
  rw [Real.lt_log_iff_exp_lt (by norm_num : (0 : ℝ) < 10)]
  have h2 : Real.exp 2 = Real.exp 1 * Real.exp 1 := by
    rw [← Real.exp_add]; norm_num
  nlinarith [Real.exp_one_lt_d9, Real.exp_pos 1]

/-- Upper bound on the base-10 logarithm near 1. -/
lemma logb_ten_le_half_sub_one {x : ℝ} (hx : 1 ≤ x) :
    Real.logb 10 x ≤ (x - 1) / 2 := by
  have hlog : Real.log x ≤ x - 1 := Real.log_le_sub_one_of_pos (by linarith)
  have hlogx : 0 ≤ Real.log x := Real.log_nonneg hx
  have h10 : (2 : ℝ) < Real.log 10 := two_lt_log_ten
  rw [Real.logb, div_le_iff₀ (by linarith)]
  nlinarith [mul_nonneg (sub_nonneg.mpr hx) (by linarith : (0 : ℝ) ≤ Real.log 10 - 2)]

/-- The base-10 logarithm of a number at least 10 is at least 1. -/
lemma one_le_logb_ten {x : ℝ} (hx : 10 ≤ x) : 1 ≤ Real.logb 10 x := by
  have h1 : Real.logb 10 10 = 1 := Real.logb_self_eq_one (by norm_num)
  rw [← h1]
  exact Real.logb_le_logb_of_le (by norm_num) (by norm_num) hx

/-- For arguments at least 1, the 0.9 power dominates the square root. -/
lemma sqrt_le_rpow_nine_tenths {x : ℝ} (hx : 1 ≤ x) :
    Real.sqrt x ≤ x ^ (0.9 : ℝ) := by
  rw [Real.sqrt_eq_rpow]
  exact Real.rpow_le_rpow_of_exponent_le hx (by norm_num)

/-- C2: for positive diameter the head-loss routine applies the spec's
unit conversions and loss formulas, and on the spec's scenario 1
(50 m³/h, 100 mm, 100 m, 0.15 mm, K = 5, water at 20 °C) the velocity
is ≈ 1.768 m/s, the Reynolds number is ≈ 1.76e5 (turbulent), both losses
are strictly positive, and the minor loss equals `5 · v² / 19.62`. -/
theorem headloss_conversions_and_scenario1 :
    (∀ (vazao d L eps k : ℝ) (fl : Fluido), 0 < d →
        (calcular_perda_carga vazao d L eps k fl).velocidade
          = (vazao / 3600) / (Real.pi * (d / 1000) ^ 2 / 4)
      ∧ (calcular_perda_carga vazao d L eps k fl).localizada
          = k * (((vazao / 3600) / (Real.pi * (d / 1000) ^ 2 / 4)) ^ 2 / (2 * 9.81))
      ∧ (calcular_perda_carga vazao d L eps k fl).principal
          = specFriction vazao d eps fl * (L / (d / 1000)) *
            (((vazao / 3600) / (Real.pi * (d / 1000) ^ 2 / 4)) ^ 2 / (2 * 9.81)))
    ∧ 1.768 < (calcular_perda_carga 50 100 100 0.15 5 aguaA20C).velocidade
    ∧ (calcular_perda_carga 50 100 100 0.15 5 aguaA20C).velocidade < 1.769
    ∧ 175000 < specReynolds 50 100 aguaA20C
    ∧ specReynolds 50 100 aguaA20C < 177000
    ∧ 4000 < specReynolds 50 100 aguaA20C
    ∧ 0 < (calcular_perda_carga 50 100 100 0.15 5 aguaA20C).principal
    ∧ 0 < (calcular_perda_carga 50 100 100 0.15 5 aguaA20C).localizada
    ∧ (calcular_perda_carga 50 100 100 0.15 5 aguaA20C).localizada
        = 5.0 * (calcular_perda_carga 50 100 100 0.15 5 aguaA20C).velocidade ^ 2
          / 19.62 := by
  have hpi1 : (3.1415 : ℝ) < π := Real.pi_gt_d4
  have hpi2 : π < 3.1416 := Real.pi_lt_d4
  have hpipos : (0 : ℝ) < π := Real.pi_pos
  have hpne : π ≠ 0 := ne_of_gt hpipos
  have hv : specVelocity 50 100 = 50 / (9 * π) := by
    unfold specVelocity
    field_simp
    ring
  have hvpos : 0 < specVelocity 50 100 := by rw [hv]; positivity
  have hvlb : 1.768 < specVelocity 50 100 := by
    rw [hv, lt_div_iff₀ (by positivity)]
    nlinarith
  have hvub : specVelocity 50 100 < 1.769 := by
    rw [hv, div_lt_iff₀ (by positivity)]
    nlinarith
  have hre : specReynolds 50 100 aguaA20C = 5 / (9 * 1.004e-6 * π) := by
    unfold specReynolds
    rw [if_pos (by norm_num [aguaA20C] : aguaA20C.nu > 0), hv,
      show aguaA20C.nu = 1.004e-6 from rfl]
    field_simp
    ring
  have hrelb : 175000 < specReynolds 50 100 aguaA20C := by
    rw [hre, lt_div_iff₀ (by positivity)]
    nlinarith
  have hreub : specReynolds 50 100 aguaA20C < 177000 := by
    rw [hre, div_lt_iff₀ (by positivity)]
    nlinarith
  have hre4000 : (4000 : ℝ) < specReynolds 50 100 aguaA20C := by linarith
  have hrepos : (0 : ℝ) < specReynolds 50 100 aguaA20C := by linarith
  have hre1 : (1 : ℝ) ≤ specReynolds 50 100 aguaA20C := by linarith
  have hsqrt : (418 : ℝ) ≤ Real.sqrt (specReynolds 50 100 aguaA20C) := by
    rw [show (418 : ℝ) = Real.sqrt (418 ^ 2) from (Real.sqrt_sq (by norm_num)).symm]
    exact Real.sqrt_le_sqrt (by nlinarith)
  have hrp : (418 : ℝ) ≤ specReynolds 50 100 aguaA20C ^ (0.9 : ℝ) :=
    le_trans hsqrt (sqrt_le_rpow_nine_tenths hre1)
  have hrppos : (0 : ℝ) < specReynolds 50 100 aguaA20C ^ (0.9 : ℝ) :=
    Real.rpow_pos_of_pos hrepos _
  have hdub : 5.74 / specReynolds 50 100 aguaA20C ^ (0.9 : ℝ) ≤ 5.74 / 418 := by
    gcongr
  have hf : specFriction 50 100 0.15 aguaA20C
      = 0.25 / (Real.logb 10 ((0.15 / 1000) / (3.7 * ((100 : ℝ) / 1000)) +
          5.74 / specReynolds 50 100 aguaA20C ^ (0.9 : ℝ))) ^ 2 := by
    simp only [specFriction]
    rw [if_pos hre4000]
  have hargpos : 0 < (0.15 / 1000) / (3.7 * ((100 : ℝ) / 1000)) +
      5.74 / specReynolds 50 100 aguaA20C ^ (0.9 : ℝ) := by positivity
  have harglt : (0.15 / 1000) / (3.7 * ((100 : ℝ) / 1000)) +
      5.74 / specReynolds 50 100 aguaA20C ^ (0.9 : ℝ) < 1 := by
    nlinarith [hdub, hrppos]
  have hlogneg : Real.logb 10 ((0.15 / 1000) / (3.7 * ((100 : ℝ) / 1000)) +
      5.74 / specReynolds 50 100 aguaA20C ^ (0.9 : ℝ)) < 0 :=
    Real.logb_neg (by norm_num) hargpos harglt
  have hfpos : 0 < specFriction 50 100 0.15 aguaA20C := by
    rw [hf]
    exact div_pos (by norm_num) (pow_two_pos_of_ne_zero (ne_of_lt hlogneg))
  have hd100 : (0 : ℝ) < 100 := by norm_num
  refine ⟨?_, ?_, ?_, hrelb, hreub, hre4000, ?_, ?_, ?_⟩
  · intro vazao d L eps k fl hd
    rw [calcular_perda_carga_eq_spec vazao d L eps k fl hd]
    exact ⟨rfl, rfl, rfl⟩
  · rw [calcular_perda_carga_eq_spec 50 100 100 0.15 5 aguaA20C hd100]
    exact hvlb
  · rw [calcular_perda_carga_eq_spec 50 100 100 0.15 5 aguaA20C hd100]
    exact hvub
  · rw [calcular_perda_carga_eq_spec 50 100 100 0.15 5 aguaA20C hd100]
    show 0 < specFriction 50 100 0.15 aguaA20C * (100 / (100 / 1000)) *
      (specVelocity 50 100 ^ 2 / (2 * 9.81))
    have h1000 : (100 : ℝ) / (100 / 1000) = 1000 := by norm_num
    rw [h1000]
    exact mul_pos (mul_pos hfpos (by norm_num))
      (div_pos (pow_pos hvpos 2) (by norm_num))
  · rw [calcular_perda_carga_eq_spec 50 100 100 0.15 5 aguaA20C hd100]
    show 0 < 5 * (specVelocity 50 100 ^ 2 / (2 * 9.81))
    exact mul_pos (by norm_num) (div_pos (pow_pos hvpos 2) (by norm_num))
  · rw [calcular_perda_carga_eq_spec 50 100 100 0.15 5 aguaA20C hd100]
    show 5 * (specVelocity 50 100 ^ 2 / (2 * 9.81))
      = 5.0 * specVelocity 50 100 ^ 2 / 19.62
    rw [show (2 : ℝ) * 9.81 = 19.62 by norm_num]
    ring

/-- Witness for `headloss_conversions_and_scenario1` at a concrete
input (discharging the positive-diameter hypothesis of its universal
clause). -/
theorem headloss_conversions_and_scenario1_witness :
    (0 : ℝ) < 100 ∧
      ((calcular_perda_carga 50 100 100 0.15 5 aguaA20C).velocidade
          = (50 / 3600) / (Real.pi * ((100 : ℝ) / 1000) ^ 2 / 4)
        ∧ (calcular_perda_carga 50 100 100 0.15 5 aguaA20C).localizada
          = 5 * (((50 / 3600) / (Real.pi * ((100 : ℝ) / 1000) ^ 2 / 4)) ^ 2 / (2 * 9.81))
        ∧ (calcular_perda_carga 50 100 100 0.15 5 aguaA20C).principal
          = specFriction 50 100 0.15 aguaA20C * (100 / ((100 : ℝ) / 1000)) *
            (((50 / 3600) / (Real.pi * ((100 : ℝ) / 1000) ^ 2 / 4)) ^ 2 / (2 * 9.81))) :=
  ⟨by norm_num,
    headloss_conversions_and_scenario1.1 50 100 100 0.15 5 aguaA20C (by norm_num)⟩

/-- C10: with positive diameter and flow but non-positive kinematic
viscosity, only the Reynolds-dependent part is zeroed: the major loss is
0, yet the velocity is still the positive area formula and the minor
loss is still `k · v²/(2·9.81)`, positive whenever `k > 0`. -/
theorem zero_viscosity_partial_result (vazao d L eps k : ℝ) (fl : Fluido)
    (hd : 0 < d) (hq : 0 < vazao) (hnu : fl.nu ≤ 0) :
    (calcular_perda_carga vazao d L eps k fl).principal = 0
    ∧ 0 < (calcular_perda_carga vazao d L eps k fl).velocidade
    ∧ (calcular_perda_carga vazao d L eps k fl).localizada
        = k * ((calcular_perda_carga vazao d L eps k fl).velocidade ^ 2 / (2 * 9.81))
    ∧ (0 < k → 0 < (calcular_perda_carga vazao d L eps k fl).localizada) := by
  have hre : specReynolds vazao d fl = 0 := by
    simp only [specReynolds, if_neg (not_lt.mpr hnu)]
  have hf : specFriction vazao d eps fl = 0 := by
    simp only [specFriction, hre]
    rw [if_neg (by norm_num), if_neg (by norm_num)]
  have hvpos : 0 < specVelocity vazao d := by
    unfold specVelocity
    exact div_pos (div_pos hq (by norm_num))
      (div_pos (mul_pos Real.pi_pos (pow_pos (div_pos hd (by norm_num)) 2))
        (by norm_num))
  rw [calcular_perda_carga_eq_spec vazao d L eps k fl hd]
  refine ⟨?_, hvpos, rfl, fun hk => ?_⟩
  · show specFriction vazao d eps fl * (L / (d / 1000)) *
      (specVelocity vazao d ^ 2 / (2 * 9.81)) = 0
    rw [hf]
    ring
  · show 0 < k * (specVelocity vazao d ^ 2 / (2 * 9.81))
    exact mul_pos hk (div_pos (pow_pos hvpos 2) (by norm_num))

/-- Witness for `zero_viscosity_partial_result` at a concrete malformed
fluid with zero viscosity. -/
theorem zero_viscosity_partial_result_witness :
    (0 : ℝ) < 100 ∧ (0 : ℝ) < 50 ∧ (Fluido.mk 1000 0).nu ≤ 0 ∧
      ((calcular_perda_carga 50 100 100 0.15 5 (Fluido.mk 1000 0)).principal = 0
      ∧ 0 < (calcular_perda_carga 50 100 100 0.15 5 (Fluido.mk 1000 0)).velocidade
      ∧ (calcular_perda_carga 50 100 100 0.15 5 (Fluido.mk 1000 0)).localizada
          = 5 * ((calcular_perda_carga 50 100 100 0.15 5 (Fluido.mk 1000 0)).velocidade ^ 2
            / (2 * 9.81))
      ∧ (0 < (5 : ℝ) →
          0 < (calcular_perda_carga 50 100 100 0.15 5 (Fluido.mk 1000 0)).localizada)) :=
  ⟨by norm_num, by norm_num, le_of_eq rfl,
    zero_viscosity_partial_result 50 100 100 0.15 5 (Fluido.mk 1000 0)
      (by norm_num) (by norm_num) (le_of_eq rfl)⟩

/-- C4: for a valid range the sweep samples
`diam_min, diam_min + passo, …` in strictly ascending order, its last
sample reaches at least `diam_max` (possibly overshooting), and every
pair carries the annual cost computed from the head losses at that
diameter added to the fixed geometric head. -/
theorem sweep_sampling (dmin dmax passo : ℝ) (p : SweepParams)
    (hlt : dmin < dmax) (hp : 0 < passo) :
    gerar_grafico_diametro_custo dmin dmax passo p ≠ []
    ∧ (gerar_grafico_diametro_custo dmin dmax passo p).map Prod.fst
        = (List.range ⌈(dmax + passo - dmin) / passo⌉₊).map
            (fun i : ℕ => dmin + (i : ℝ) * passo)
    ∧ (gerar_grafico_diametro_custo dmin dmax passo p).Pairwise
        (fun a b => a.1 < b.1)
    ∧ (∀ x : ℝ, ((gerar_grafico_diametro_custo dmin dmax passo p).map
          Prod.fst).getLast? = some x → dmax ≤ x)
    ∧ (∀ pt ∈ gerar_grafico_diametro_custo dmin dmax passo p,
        pt.2 = (calcular_analise_energetica p.vazao
          (p.h_geometrica
            + (calcular_perda_carga p.vazao pt.1 p.comp_tub p.rug_tub
                p.k_total_acessorios p.fluido_selecionado).principal
            + (calcular_perda_carga p.vazao pt.1 p.comp_tub p.rug_tub
                p.k_total_acessorios p.fluido_selecionado).localizada)
          p.rend_bomba p.rend_motor p.horas_por_dia p.tarifa_energia
          p.fluido_selecionado).custo_anual) := by
  have hcond : ¬ (dmin ≥ dmax ∨ passo ≤ 0) := by
    push_neg
    exact ⟨hlt, hp⟩
  have hG : gerar_grafico_diametro_custo dmin dmax passo p
      = (arange dmin (dmax + passo) passo).map fun diam =>
          (diam, (calcular_analise_energetica p.vazao
            (p.h_geometrica
              + (calcular_perda_carga p.vazao diam p.comp_tub p.rug_tub
                  p.k_total_acessorios p.fluido_selecionado).principal
              + (calcular_perda_carga p.vazao diam p.comp_tub p.rug_tub
                  p.k_total_acessorios p.fluido_selecionado).localizada)
            p.rend_bomba p.rend_motor p.horas_por_dia p.tarifa_energia
            p.fluido_selecionado).custo_anual) := by
    unfold gerar_grafico_diametro_custo
    rw [if_neg hcond]
  have hnpos : 0 < ⌈(dmax + passo - dmin) / passo⌉₊ :=
    Nat.ceil_pos.mpr (div_pos (by linarith) hp)
  have harpw : (arange dmin (dmax + passo) passo).Pairwise (· < ·) := by
    unfold arange
    refine List.Pairwise.map _ ?_ (List.pairwise_lt_range _)
    intro a b hab
    have hab' : (a : ℝ) < b := by exact_mod_cast hab
    nlinarith
  have hb : (gerar_grafico_diametro_custo dmin dmax passo p).map Prod.fst
      = (List.range ⌈(dmax + passo - dmin) / passo⌉₊).map
          (fun i : ℕ => dmin + (i : ℝ) * passo) := by
    rw [hG]
    unfold arange
    rw [List.map_map, List.map_map]
    rfl
  refine ⟨?_, hb, ?_, ?_, ?_⟩
  · have hlenpos : 0 < (gerar_grafico_diametro_custo dmin dmax passo p).length := by
      rw [hG]
      unfold arange
      simp only [List.length_map, List.length_range]
      exact hnpos
    exact List.length_pos.mp hlenpos
  · rw [hG]
    refine List.Pairwise.map _ ?_ harpw
    intro a b hab
    exact hab
  · intro x hx
    rw [hb] at hx
    rw [List.getLast?_eq_getElem?] at hx
    simp only [List.length_map, List.length_range] at hx
    rw [List.getElem?_map,
      List.getElem?_range (by omega : ⌈(dmax + passo - dmin) / passo⌉₊ - 1
        < ⌈(dmax + passo - dmin) / passo⌉₊)] at hx
    simp only [Option.map_some', Option.some.injEq] at hx
    subst hx
    have hceil : (dmax + passo - dmin) / passo
        ≤ (⌈(dmax + passo - dmin) / passo⌉₊ : ℝ) := Nat.le_ceil _
    have hcast : ((⌈(dmax + passo - dmin) / passo⌉₊ - 1 : ℕ) : ℝ)
        = (⌈(dmax + passo - dmin) / passo⌉₊ : ℝ) - 1 := by
      have h1 : 1 ≤ ⌈(dmax + passo - dmin) / passo⌉₊ := hnpos
      push_cast [h1]
      ring
    rw [hcast]
    have hmul : (dmax + passo - dmin) / passo * passo = dmax + passo - dmin :=
      div_mul_cancel₀ _ (ne_of_gt hp)
    nlinarith [mul_le_mul_of_nonneg_right hceil (le_of_lt hp)]
  · intro pt hpt
    rw [hG] at hpt
    rw [List.mem_map] at hpt
    obtain ⟨a, _, rfl⟩ := hpt
    rfl

/-- Witness for `sweep_sampling` on the default UI range 50–300 mm with
a 25 mm step. -/
theorem sweep_sampling_witness :
    (50 : ℝ) < 300 ∧ (0 : ℝ) < 25 ∧
      (gerar_grafico_diametro_custo 50 300 25
          ⟨50, 15, 100, 0.15, 5, 0.7, 0.9, 8, 0.75, aguaA20C⟩ ≠ []
      ∧ (gerar_grafico_diametro_custo 50 300 25
            ⟨50, 15, 100, 0.15, 5, 0.7, 0.9, 8, 0.75, aguaA20C⟩).map Prod.fst
          = (List.range ⌈((300 : ℝ) + 25 - 50) / 25⌉₊).map
              (fun i : ℕ => 50 + (i : ℝ) * 25)
      ∧ (gerar_grafico_diametro_custo 50 300 25
            ⟨50, 15, 100, 0.15, 5, 0.7, 0.9, 8, 0.75, aguaA20C⟩).Pairwise
          (fun a b => a.1 < b.1)
      ∧ (∀ x : ℝ, ((gerar_grafico_diametro_custo 50 300 25
            ⟨50, 15, 100, 0.15, 5, 0.7, 0.9, 8, 0.75, aguaA20C⟩).map
            Prod.fst).getLast? = some x → (300 : ℝ) ≤ x)
      ∧ (∀ pt ∈ gerar_grafico_diametro_custo 50 300 25
            ⟨50, 15, 100, 0.15, 5, 0.7, 0.9, 8, 0.75, aguaA20C⟩,
          pt.2 = (calcular_analise_energetica
            (SweepParams.mk 50 15 100 0.15 5 0.7 0.9 8 0.75 aguaA20C).vazao
            ((SweepParams.mk 50 15 100 0.15 5 0.7 0.9 8 0.75 aguaA20C).h_geometrica
              + (calcular_perda_carga
                  (SweepParams.mk 50 15 100 0.15 5 0.7 0.9 8 0.75 aguaA20C).vazao pt.1
                  (SweepParams.mk 50 15 100 0.15 5 0.7 0.9 8 0.75 aguaA20C).comp_tub
                  (SweepParams.mk 50 15 100 0.15 5 0.7 0.9 8 0.75 aguaA20C).rug_tub
                  (SweepParams.mk 50 15 100 0.15 5 0.7 0.9 8 0.75 aguaA20C).k_total_acessorios
                  (SweepParams.mk 50 15 100 0.15 5 0.7 0.9 8 0.75 aguaA20C).fluido_selecionado).principal
              + (calcular_perda_carga
                  (SweepParams.mk 50 15 100 0.15 5 0.7 0.9 8 0.75 aguaA20C).vazao pt.1
                  (SweepParams.mk 50 15 100 0.15 5 0.7 0.9 8 0.75 aguaA20C).comp_tub
                  (SweepParams.mk 50 15 100 0.15 5 0.7 0.9 8 0.75 aguaA20C).rug_tub
                  (SweepParams.mk 50 15 100 0.15 5 0.7 0.9 8 0.75 aguaA20C).k_total_acessorios
                  (SweepParams.mk 50 15 100 0.15 5 0.7 0.9 8 0.75 aguaA20C).fluido_selecionado).localizada)
            (SweepParams.mk 50 15 100 0.15 5 0.7 0.9 8 0.75 aguaA20C).rend_bomba
            (SweepParams.mk 50 15 100 0.15 5 0.7 0.9 8 0.75 aguaA20C).rend_motor
            (SweepParams.mk 50 15 100 0.15 5 0.7 0.9 8 0.75 aguaA20C).horas_por_dia
            (SweepParams.mk 50 15 100 0.15 5 0.7 0.9 8 0.75 aguaA20C).tarifa_energia
            (SweepParams.mk 50 15 100 0.15 5 0.7 0.9 8 0.75 aguaA20C).fluido_selecionado).custo_anual)) :=
  ⟨by norm_num, by norm_num,
    sweep_sampling 50 300 25 ⟨50, 15, 100, 0.15, 5, 0.7, 0.9, 8, 0.75, aguaA20C⟩
      (by norm_num) (by norm_num)⟩

/-- C9 (amended): for fixed positive flow and fixed non-diameter
parameters, the velocity returned by `calcular_perda_carga` is strictly
antitone in the diameter. -/
theorem velocity_strictly_antitone (vazao L eps k d1 d2 : ℝ) (fl : Fluido)
    (hq : 0 < vazao) (h1 : 0 < d1) (h12 : d1 < d2) :
    (calcular_perda_carga vazao d2 L eps k fl).velocidade
      < (calcular_perda_carga vazao d1 L eps k fl).velocidade := by
  have h2 : 0 < d2 := lt_trans h1 h12
  rw [calcular_perda_carga_eq_spec vazao d1 L eps k fl h1,
    calcular_perda_carga_eq_spec vazao d2 L eps k fl h2]
  show specVelocity vazao d2 < specVelocity vazao d1
  unfold specVelocity
  have hA1 : 0 < Real.pi * (d1 / 1000) ^ 2 / 4 :=
    div_pos (mul_pos Real.pi_pos (pow_pos (div_pos h1 (by norm_num)) 2))
      (by norm_num)
  have hA12 : Real.pi * (d1 / 1000) ^ 2 / 4 < Real.pi * (d2 / 1000) ^ 2 / 4 := by
    have hsq : (d1 / 1000) ^ 2 < (d2 / 1000) ^ 2 := by
      apply pow_lt_pow_left₀ (by linarith) (by positivity)
      norm_num
    nlinarith [Real.pi_pos]
  exact div_lt_div_of_pos_left (div_pos hq (by norm_num)) hA1 hA12

/-- Witness for `velocity_strictly_antitone` at concrete diameters. -/
theorem velocity_strictly_antitone_witness :
    (0 : ℝ) < 50 ∧ (0 : ℝ) < 100 ∧ (100 : ℝ) < 200 ∧
      (calcular_perda_carga 50 200 100 0.15 5 aguaA20C).velocidade
        < (calcular_perda_carga 50 100 100 0.15 5 aguaA20C).velocidade :=
  ⟨by norm_num, by norm_num, by norm_num,
    velocity_strictly_antitone 50 100 0.15 5 100 200 aguaA20C
      (by norm_num) (by norm_num) (by norm_num)⟩

set_option maxHeartbeats 2000000 in
/-- Counterexample for C9: the major loss is not antitone in the
diameter.  At flow 3600 m³/h, length 1 m, roughness 370 mm, K = 0 and
water at 20 °C, the relative roughness at a 100 mm diameter makes the
Swamee–Jain logarithm argument approach 1, the friction factor blows
up, and the major loss at 100 mm strictly exceeds the one at 10 mm. -/
theorem major_loss_not_antitone :
    (calcular_perda_carga 3600 10 1 370 0 aguaA20C).principal
      < (calcular_perda_carga 3600 100 1 370 0 aguaA20C).principal := by
  have hpi1 : (3.1415 : ℝ) < π := Real.pi_gt_d4
  have hpi2 : π < 3.1416 := Real.pi_lt_d4
  have hpipos : (0 : ℝ) < π := Real.pi_pos
  have hv1 : specVelocity 3600 10 = 40000 / π := by
    unfold specVelocity
    field_simp
    ring
  have hv2 : specVelocity 3600 100 = 400 / π := by
    unfold specVelocity
    field_simp
    ring
  have hre1 : specReynolds 3600 10 aguaA20C = 400 / (1.004e-6 * π) := by
    unfold specReynolds
    rw [if_pos (by norm_num [aguaA20C] : aguaA20C.nu > 0), hv1,
      show aguaA20C.nu = 1.004e-6 from rfl]
    field_simp
    ring
  have hre2 : specReynolds 3600 100 aguaA20C = 40 / (1.004e-6 * π) := by
    unfold specReynolds
    rw [if_pos (by norm_num [aguaA20C] : aguaA20C.nu > 0), hv2,
      show aguaA20C.nu = 1.004e-6 from rfl]
    field_simp
    ring
  have hre2lb : (1.267e7 : ℝ) < specReynolds 3600 100 aguaA20C := by
    rw [hre2, lt_div_iff₀ (by positivity)]
    nlinarith
  have hre2gt : (4000 : ℝ) < specReynolds 3600 100 aguaA20C := by linarith
  have hre1gt : (4000 : ℝ) < specReynolds 3600 10 aguaA20C := by
    rw [hre1, lt_div_iff₀ (by positivity)]
    nlinarith
  have hre2pos : (0 : ℝ) < specReynolds 3600 100 aguaA20C := by linarith
  have hre1pos : (0 : ℝ) < specReynolds 3600 10 aguaA20C := by linarith
  have hre2one : (1 : ℝ) ≤ specReynolds 3600 100 aguaA20C := by linarith
  have hsq : (3559 : ℝ) ≤ Real.sqrt (specReynolds 3600 100 aguaA20C) := by
    rw [show (3559 : ℝ) = Real.sqrt (3559 ^ 2) from (Real.sqrt_sq (by norm_num)).symm]
    exact Real.sqrt_le_sqrt (by nlinarith)
  have hrp2 : (3559 : ℝ) ≤ specReynolds 3600 100 aguaA20C ^ (0.9 : ℝ) :=
    le_trans hsq (sqrt_le_rpow_nine_tenths hre2one)
  have hrp2pos : (0 : ℝ) < specReynolds 3600 100 aguaA20C ^ (0.9 : ℝ) :=
    Real.rpow_pos_of_pos hre2pos _
  have hd2ub : 5.74 / specReynolds 3600 100 aguaA20C ^ (0.9 : ℝ) ≤ 5.74 / 3559 := by
    gcongr
  have hd2pos : 0 < 5.74 / specReynolds 3600 100 aguaA20C ^ (0.9 : ℝ) := by
    positivity
  have hd1pos : 0 < 5.74 / specReynolds 3600 10 aguaA20C ^ (0.9 : ℝ) := by
    have := Real.rpow_pos_of_pos hre1pos (0.9 : ℝ)
    positivity
  have hf2 : specFriction 3600 100 370 aguaA20C
      = 0.25 / (Real.logb 10 ((370 / 1000) / (3.7 * ((100 : ℝ) / 1000)) +
          5.74 / specReynolds 3600 100 aguaA20C ^ (0.9 : ℝ))) ^ 2 := by
    simp only [specFriction]
    rw [if_pos hre2gt]
  have hf1 : specFriction 3600 10 370 aguaA20C
      = 0.25 / (Real.logb 10 ((370 / 1000) / (3.7 * ((10 : ℝ) / 1000)) +
          5.74 / specReynolds 3600 10 aguaA20C ^ (0.9 : ℝ))) ^ 2 := by
    simp only [specFriction]
    rw [if_pos hre1gt]
  have hA2gt : (1 : ℝ) < (370 / 1000) / (3.7 * ((100 : ℝ) / 1000)) +
      5.74 / specReynolds 3600 100 aguaA20C ^ (0.9 : ℝ) := by
    have h1 : (370 : ℝ) / 1000 / (3.7 * ((100 : ℝ) / 1000)) = 1 := by norm_num
    rw [h1]
    linarith
  have hlg2pos : 0 < Real.logb 10 ((370 / 1000) / (3.7 * ((100 : ℝ) / 1000)) +
      5.74 / specReynolds 3600 100 aguaA20C ^ (0.9 : ℝ)) :=
    Real.logb_pos (by norm_num) hA2gt
  have hlg2ub : Real.logb 10 ((370 / 1000) / (3.7 * ((100 : ℝ) / 1000)) +
      5.74 / specReynolds 3600 100 aguaA20C ^ (0.9 : ℝ)) ≤ 8.1e-4 := by
    have hkey := logb_ten_le_half_sub_one (le_of_lt hA2gt)
    have h1 : (370 : ℝ) / 1000 / (3.7 * ((100 : ℝ) / 1000)) = 1 := by norm_num
    rw [h1] at hkey ⊢
    linarith [hd2ub]
  have hA1ge : (10 : ℝ) ≤ (370 / 1000) / (3.7 * ((10 : ℝ) / 1000)) +
      5.74 / specReynolds 3600 10 aguaA20C ^ (0.9 : ℝ) := by
    have h1 : (370 : ℝ) / 1000 / (3.7 * ((10 : ℝ) / 1000)) = 10 := by norm_num
    rw [h1]
    linarith
  have hlg1ge : 1 ≤ Real.logb 10 ((370 / 1000) / (3.7 * ((10 : ℝ) / 1000)) +
      5.74 / specReynolds 3600 10 aguaA20C ^ (0.9 : ℝ)) :=
    one_le_logb_ten hA1ge
  have hF2lb : (3.7e5 : ℝ) ≤ 0.25 / (Real.logb 10 ((370 / 1000) /
      (3.7 * ((100 : ℝ) / 1000)) +
      5.74 / specReynolds 3600 100 aguaA20C ^ (0.9 : ℝ))) ^ 2 := by
    rw [le_div_iff₀ (pow_pos hlg2pos 2)]
    nlinarith [hlg2ub, hlg2pos]
  have hF1ub : 0.25 / (Real.logb 10 ((370 / 1000) / (3.7 * ((10 : ℝ) / 1000)) +
      5.74 / specReynolds 3600 10 aguaA20C ^ (0.9 : ℝ))) ^ 2 ≤ 0.25 := by
    rw [div_le_iff₀ (by nlinarith [hlg1ge] : (0 : ℝ) <
      (Real.logb 10 ((370 / 1000) / (3.7 * ((10 : ℝ) / 1000)) +
        5.74 / specReynolds 3600 10 aguaA20C ^ (0.9 : ℝ))) ^ 2)]
    nlinarith [hlg1ge]
  have hF1nn : 0 ≤ 0.25 / (Real.logb 10 ((370 / 1000) / (3.7 * ((10 : ℝ) / 1000)) +
      5.74 / specReynolds 3600 10 aguaA20C ^ (0.9 : ℝ))) ^ 2 := by positivity
  have hvb1 : (40000 / π) ^ 2 ≤ (12740 : ℝ) ^ 2 := by
    apply pow_le_pow_left₀ (by positivity)
    rw [div_le_iff₀ hpipos]
    nlinarith
  have hvb2 : (127 : ℝ) ^ 2 ≤ (400 / π) ^ 2 := by
    apply pow_le_pow_left₀ (by norm_num)
    rw [le_div_iff₀ hpipos]
    nlinarith
  rw [calcular_perda_carga_eq_spec 3600 10 1 370 0 aguaA20C (by norm_num),
    calcular_perda_carga_eq_spec 3600 100 1 370 0 aguaA20C (by norm_num)]
  show specFriction 3600 10 370 aguaA20C * (1 / (10 / 1000)) *
      (specVelocity 3600 10 ^ 2 / (2 * 9.81))
    < specFriction 3600 100 370 aguaA20C * (1 / (100 / 1000)) *
      (specVelocity 3600 100 ^ 2 / (2 * 9.81))
  rw [hf1, hf2, hv1, hv2]
  have hprod1 : 0.25 / (Real.logb 10 ((370 / 1000) / (3.7 * ((10 : ℝ) / 1000)) +
      5.74 / specReynolds 3600 10 aguaA20C ^ (0.9 : ℝ))) ^ 2 * (40000 / π) ^ 2
      ≤ 0.25 * 12740 ^ 2 :=
    mul_le_mul hF1ub hvb1 (by positivity) (by norm_num)
  have hprod2 : (3.7e5 : ℝ) * 127 ^ 2
      ≤ 0.25 / (Real.logb 10 ((370 / 1000) / (3.7 * ((100 : ℝ) / 1000)) +
        5.74 / specReynolds 3600 100 aguaA20C ^ (0.9 : ℝ))) ^ 2 * (400 / π) ^ 2 :=
    mul_le_mul hF2lb hvb2 (by norm_num) (by positivity)
  set F1 := 0.25 / (Real.logb 10 ((370 / 1000) / (3.7 * ((10 : ℝ) / 1000)) +
    5.74 / specReynolds 3600 10 aguaA20C ^ (0.9 : ℝ))) ^ 2 with hF1def
  set F2 := 0.25 / (Real.logb 10 ((370 / 1000) / (3.7 * ((100 : ℝ) / 1000)) +
    5.74 / specReynolds 3600 100 aguaA20C ^ (0.9 : ℝ))) ^ 2 with hF2def
  have hL : F1 * (1 / ((10 : ℝ) / 1000)) * ((40000 / π) ^ 2 / (2 * 9.81))
      ≤ (0.25 * 12740 ^ 2) * (100 / (2 * 9.81)) := by
    have heq : F1 * (1 / ((10 : ℝ) / 1000)) * ((40000 / π) ^ 2 / (2 * 9.81))
        = (F1 * (40000 / π) ^ 2) * (100 / (2 * 9.81)) := by ring
    rw [heq]
    exact mul_le_mul_of_nonneg_right hprod1 (by norm_num)
  have hR : ((3.7e5 * 127 ^ 2) : ℝ) * (10 / (2 * 9.81))
      ≤ F2 * (1 / ((100 : ℝ) / 1000)) * ((400 / π) ^ 2 / (2 * 9.81)) := by
    have heq : F2 * (1 / ((100 : ℝ) / 1000)) * ((400 / π) ^ 2 / (2 * 9.81))
        = (F2 * (400 / π) ^ 2) * (10 / (2 * 9.81)) := by ring
    rw [heq]
    exact mul_le_mul_of_nonneg_right hprod2 (by norm_num)
  have hmid : ((0.25 * 12740 ^ 2) : ℝ) * (100 / (2 * 9.81))
      < (3.7e5 * 127 ^ 2) * (10 / (2 * 9.81)) := by norm_num
  linarith
